import Mathlib

/-
Verification development for the Bangumi chat-bot plugin
(src/main.py, src/method.py).

The Python code is shallowly embedded: JSON values become the inductive
type `JVal`, dictionaries become association lists, Python exceptions
become `Except` errors, wall-clock time becomes `ℚ` (seconds), the
process file system becomes a list of paths, and the asyncio event loop
is modelled by an explicit small-step interpreter (`rlStep` / `rlRun`)
whose suspension point is exactly the one `await asyncio.sleep` of
`_request`.
-/

namespace Bangumi

/-- A JSON value, as produced by `response.json()`.  Numbers are modelled
as integers (every numeric field the claims touch — ids, totals, type
codes, rank — is integral in the remote API). -/
inductive JVal where
  | null
  | bool (b : Bool)
  | num (n : Int)
  | str (s : String)
  | arr (xs : List JVal)
  | obj (fields : List (String × JVal))

/-- Python runtime errors that the embedded fragments can raise. -/
inductive PyErr where
  | keyError (k : String)
  | typeError
  | attributeError
  | indexError
deriving DecidableEq

/-- `d.get(k, default)` on a Python dict (association list): the stored
value if the key is present (even if that value is `None`), else the
default. -/
def pyGetD (d : List (String × JVal)) (k : String) (dflt : JVal) : JVal :=
  (d.lookup k).getD dflt

/-- `d.get(k)` on a Python dict: the value, or `None` when absent. -/
def pyGetN (d : List (String × JVal)) (k : String) : JVal :=
  (d.lookup k).getD .null

/-- `d[k]` on a Python dict: raises `KeyError` when the key is absent. -/
def pySubscriptD (d : List (String × JVal)) (k : String) : Except PyErr JVal :=
  match d.lookup k with
  | some v => .ok v
  | none => .error (.keyError k)

/-- `x[k]` where `x` is an arbitrary value: dicts index by key, anything
else raises `TypeError`. -/
def pySubscriptJ (x : JVal) (k : String) : Except PyErr JVal :=
  match x with
  | .obj fs => pySubscriptD fs k
  | _ => .error .typeError

/-- `x.get(k, default)` where `x` is an arbitrary value: only dicts have
a `.get` method, anything else raises `AttributeError`. -/
def pyGetE (x : JVal) (k : String) (dflt : JVal) : Except PyErr JVal :=
  match x with
  | .obj fs => .ok (pyGetD fs k dflt)
  | _ => .error .attributeError

/-- `x.get(k, default)` on a value already known to be a dict; returns
the default on non-dicts (used only in pure rendering templates whose
link to the raising version is proved separately). -/
def jGetD (x : JVal) (k : String) (dflt : JVal) : JVal :=
  match x with
  | .obj fs => pyGetD fs k dflt
  | _ => dflt

/-- Python truthiness: `None`, `False`, `0`, `""`, `[]`, `{}` are falsy. -/
def pyTruthy (x : JVal) : Bool :=
  match x with
  | .null => false
  | .bool b => b
  | .num n => n != 0
  | .str s => !s.isEmpty
  | .arr xs => !xs.isEmpty
  | .obj fs => !fs.isEmpty

/-- Python `a or b`: `a` when truthy, else `b`. -/
def pyOr (a b : JVal) : JVal :=
  if pyTruthy a then a else b

mutual

/-- Python `str(x)` / `repr(x)` (the `asRepr` flag picks `repr`, which
quotes strings; containers always render their elements with `repr`, as
Python does).  String escaping inside nested `repr` is not modelled (no
claim renders a container). -/
def pyRender (asRepr : Bool) (x : JVal) : String :=
  match x with
  | .null => "None"
  | .bool true => "True"
  | .bool false => "False"
  | .num n => toString n
  | .str s => if asRepr then "'" ++ s ++ "'" else s
  | .arr xs => "[" ++ String.intercalate ", " (pyRenderList xs) ++ "]"
  | .obj fs => "\x7b" ++ String.intercalate ", " (pyRenderFields fs) ++ "\x7d"
termination_by sizeOf x

def pyRenderList (xs : List JVal) : List String :=
  match xs with
  | [] => []
  | x :: rest => pyRender true x :: pyRenderList rest
termination_by sizeOf xs

def pyRenderFields (fs : List (String × JVal)) : List String :=
  match fs with
  | [] => []
  | (k, v) :: rest => ("'" ++ k ++ "': " ++ pyRender true v) :: pyRenderFields rest
termination_by sizeOf fs

end

/-- Python `str(x)`, as used when a value is interpolated into an
f-string. -/
def pyStr (x : JVal) : String :=
  pyRender false x

/-- Python integer comparison `x > m` where `x` is a JSON value and `m`
an int; bools are numeric (`True == 1`), other types raise `TypeError`. -/
def pyGtInt (x : JVal) (m : Int) : Except PyErr Bool :=
  match x with
  | .num n => .ok (decide (m < n))
  | .bool b => .ok (decide (m < (if b then (1 : Int) else 0)))
  | _ => .error .typeError

/-- Python list slice `l[:n]` for an `int` slice bound: non-negative `n`
takes the first `n` elements, negative `n` drops the last `-n`. -/
def pyTake (l : List JVal) (n : Int) : List JVal :=
  if 0 ≤ n then l.take n.toNat else l.take (l.length - (-n).toNat)

/-- `x[:n]` where `x` is an arbitrary value, modelled for lists (the
only sliced values in the plugin); non-lists raise `TypeError`. -/
def pySliceJ (x : JVal) (n : Int) : Except PyErr (List JVal) :=
  match x with
  | .arr xs => .ok (pyTake xs n)
  | _ => .error .typeError

/-- A string coerced from a JSON value, raising `TypeError` on
non-strings (as `re.sub` and `str.join` do). -/
def pyAsStr (x : JVal) : Except PyErr String :=
  match x with
  | .str s => .ok s
  | _ => .error .typeError

/-- `sep.join(xs)`: every element must be a string. -/
def pyJoin (sep : String) (xs : List JVal) : Except PyErr String := do
  let ss ← xs.mapM pyAsStr
  .ok (String.intercalate sep ss)

/-- `x[0]` on an arbitrary value, modelled for lists. -/
def pyIndex0 (x : JVal) : Except PyErr JVal :=
  match x with
  | .arr [] => .error .indexError
  | .arr (v :: _) => .ok v
  | _ => .error .typeError

/-- `str.isdigit()`, modelled over the decimal digits (the plugin's ids
are ASCII); a string is a digit string when it is non-empty and every
character is a decimal digit. -/
def pyIsdigit (s : String) : Bool :=
  !s.isEmpty && s.data.all (fun c => c.isDigit)

/-- `int(s)` on a digit string: the decimal value of its digits. -/
def pyInt (s : String) : Nat :=
  s.data.foldl (fun acc c => 10 * acc + (c.toNat - '0'.toNat)) 0

-- ---------------------------------------------------------------------
-- _handle_response (src/main.py:89-105)
-- ---------------------------------------------------------------------

/-- The plugin's exception taxonomy (src/main.py:21-31): `NoSubjectFound`,
`BangumiRateLimitError`, `BangumiApiError`, each carrying its message. -/
inductive BgmError where
  | noSubjectFound (msg : String)
  | rateLimited (msg : String)
  | apiError (msg : String)
deriving DecidableEq

/-- `_handle_response` (src/main.py:89-105): 200 returns the parsed JSON
body, 404 raises `NoSubjectFound`, 429 raises `BangumiRateLimitError`,
every other status raises `BangumiApiError` with a message built from the
status code (the response body is only logged, never part of the
exception). -/
def handle_response (status : Nat) (body : JVal) : Except BgmError JVal :=
  if status = 200 then .ok body
  else if status = 404 then .error (.noSubjectFound "未找到相关条目")
  else if status = 429 then .error (.rateLimited "API请求过于频繁，请稍后再试")
  else .error (.apiError ("API服务异常 (" ++ toString status ++ ")"))

/-- C1: for every HTTP response handled by `_handle_response`, status 200
returns the parsed JSON body unchanged, 404 fails with `NoSubjectFound`,
429 fails with `BangumiRateLimitError`, and every other status fails with
a `BangumiApiError` whose message carries that status code. -/
theorem c1_handle_response_classification (status : Nat) (body : JVal) :
    (status = 200 → handle_response status body = .ok body)
    ∧ (status = 404 → handle_response status body = .error (.noSubjectFound "未找到相关条目"))
    ∧ (status = 429 → handle_response status body = .error (.rateLimited "API请求过于频繁，请稍后再试"))
    ∧ (status ≠ 200 → status ≠ 404 → status ≠ 429 →
        handle_response status body =
          .error (.apiError ("API服务异常 (" ++ toString status ++ ")"))) := by
  refine ⟨?_, ?_, ?_, ?_⟩ <;> intros <;> simp_all [handle_response]

/-- C1 witness: the four branches evaluated at concrete statuses. -/
theorem c1_handle_response_classification_witness :
    handle_response 200 (.num 3) = .ok (.num 3)
    ∧ handle_response 404 .null = .error (.noSubjectFound "未找到相关条目")
    ∧ handle_response 429 .null = .error (.rateLimited "API请求过于频繁，请稍后再试")
    ∧ handle_response 500 .null = .error (.apiError ("API服务异常 (" ++ toString 500 ++ ")")) :=
  ⟨(c1_handle_response_classification 200 (.num 3)).1 rfl,
   (c1_handle_response_classification 404 .null).2.1 rfl,
   (c1_handle_response_classification 429 .null).2.2.1 rfl,
   (c1_handle_response_classification 500 .null).2.2.2 (by decide) (by decide) (by decide)⟩

-- ---------------------------------------------------------------------
-- Markup stripping (src/main.py:145-146, via re.sub)
-- ---------------------------------------------------------------------

/-- After the literal `<br` of a break tag: skip whitespace, then accept
`/>` or `>`, returning the remaining characters (the tail of a match of
the pattern br-whitespace-optional-slash-gt). -/
def brClose (cs : List Char) : Option (List Char) :=
  match cs with
  | [] => none
  | c :: rest =>
    if c = '>' then some rest
    else if c = '/' then
      match rest with
      | '>' :: rest2 => some rest2
      | _ => none
    else if c.isWhitespace then brClose rest
    else none

theorem brClose_lt (cs r : List Char) (h : brClose cs = some r) : r.length < cs.length := by
  induction cs with
  | nil => simp [brClose] at h
  | cons c rest ih =>
    simp only [brClose] at h
    split at h
    · cases h; simp
    · split at h
      · split at h
        · cases h; simp; omega
        · cases h
      · split at h
        · have := ih h; simp; omega
        · cases h

/-- A match of the break-tag pattern starting at the head of the list:
`<br`, whitespace, an optional `/`, then `>`. -/
def brMatch (cs : List Char) : Option (List Char) :=
  match cs with
  | '<' :: 'b' :: 'r' :: rest => brClose rest
  | _ => none

theorem brMatch_lt (cs r : List Char) (h : brMatch cs = some r) : r.length < cs.length := by
  unfold brMatch at h
  split at h
  · have := brClose_lt _ _ h
    simp
    omega
  · cases h

/-- First substitution on free text: every break tag becomes a newline
character.  The fuel argument only bounds the recursion (each step
consumes at least one character, see `brMatch_lt`), so `fuel = cs.length`
always suffices; it keeps the scan structurally recursive and hence
kernel-evaluable. -/
def stripBrGo : Nat → List Char → List Char
  | _, [] => []
  | 0, cs => cs
  | fuel + 1, c :: rest =>
    match brMatch (c :: rest) with
    | some left => '\n' :: stripBrGo fuel left
    | none => c :: stripBrGo fuel rest

def stripBrL (cs : List Char) : List Char :=
  stripBrGo cs.length cs

/-- Scan for a `>` before the end of the line, returning what follows it
(the non-greedy tail of a tag match; a dot in the pattern does not cross
a newline). -/
def gtClose (cs : List Char) : Option (List Char) :=
  match cs with
  | [] => none
  | c :: rest =>
    if c = '>' then some rest
    else if c = '\n' then none
    else gtClose rest

theorem gtClose_lt (cs r : List Char) (h : gtClose cs = some r) : r.length < cs.length := by
  induction cs with
  | nil => simp [gtClose] at h
  | cons c rest ih =>
    simp only [gtClose] at h
    split at h
    · cases h; simp
    · split at h
      · cases h
      · have := ih h; simp; omega

/-- Second substitution on free text: every remaining tag-like span
(a `<`, minimal non-newline run, `>`) is deleted outright.  Fueled like
`stripBrGo` (sufficiency by `gtClose_lt`). -/
def stripTagsGo : Nat → List Char → List Char
  | _, [] => []
  | 0, cs => cs
  | fuel + 1, c :: rest =>
    if c = '<' then
      match gtClose rest with
      | some left => stripTagsGo fuel left
      | none => c :: stripTagsGo fuel rest
    else c :: stripTagsGo fuel rest

def stripTagsL (cs : List Char) : List Char :=
  stripTagsGo cs.length cs

/-- The two `re.sub` calls applied to a free-text field, in source
order: break tags to newlines, then remaining tags deleted. -/
def strip_html (s : String) : String :=
  String.mk (stripTagsL (stripBrL s.data))

-- ---------------------------------------------------------------------
-- Type-code maps (src/main.py:45-62) and format_subject_info (130-161)
-- ---------------------------------------------------------------------

/-- `self.type_map` (src/main.py:45-51). -/
def type_map : List (Int × String) :=
  [(1, "📚 书籍"), (2, "🎬 动画"), (3, "🎵 音乐"), (4, "🎮 游戏"), (6, "🌐 三次元")]

/-- `self.character_type_map` (src/main.py:52-57). -/
def character_type_map : List (Int × String) :=
  [(1, "👤 角色"), (2, "🤖 机体"), (3, "🚢 舰船"), (4, "🏢 组织")]

/-- A JSON value used as a key of an int-keyed Python dict: ints are
themselves, bools equal 0/1, anything else never matches an int key. -/
def jIntKey (x : JVal) : Option Int :=
  match x with
  | .num n => some n
  | .bool b => some (if b then 1 else 0)
  | _ => none

/-- Lookup of a JSON value in an int-keyed map, with no default. -/
def intMapLookup (m : List (Int × String)) (x : JVal) : Option String :=
  (jIntKey x).bind (fun n => m.lookup n)

/-- `m.get(x, dflt)` on an int-keyed map. -/
def intMapGet (m : List (Int × String)) (x : JVal) (dflt : String) : String :=
  (intMapLookup m x).getD dflt

/-- `name = subject.get('name', '未知名称')` (src/main.py:132). -/
def subject_name (s : List (String × JVal)) : JVal :=
  pyGetD s "name" (.str "未知名称")

/-- `name_cn = subject.get('name_cn', name) or name` (src/main.py:133). -/
def subject_name_cn (s : List (String × JVal)) : JVal :=
  pyOr (pyGetD s "name_cn" (subject_name s)) (subject_name s)

/-- `type_str = self.type_map.get(subject.get('type', 2), self.type_map[2])`
(src/main.py:135-136); the map's entry for code 2 is the literal fallback. -/
def subject_type_str (s : List (String × JVal)) : String :=
  intMapGet type_map (pyGetD s "type" (.num 2)) "🎬 动画"

/-- `date_str = subject.get('date', '未知日期')` (src/main.py:137). -/
def subject_date (s : List (String × JVal)) : JVal :=
  pyGetD s "date" (.str "未知日期")

/-- `rating = subject.get('rating', {}); score = rating.get('score', 0)`
(src/main.py:139-140); a present non-dict `rating` raises. -/
def subject_score (s : List (String × JVal)) : Except PyErr JVal :=
  pyGetE (pyGetD s "rating" (.obj [])) "score" (.num 0)

/-- `total_votes = rating.get('total', 0)` (src/main.py:141). -/
def subject_total_votes (s : List (String × JVal)) : Except PyErr JVal :=
  pyGetE (pyGetD s "rating" (.obj [])) "total" (.num 0)

/-- `rank = subject.get('rank', 0)` (src/main.py:142). -/
def subject_rank (s : List (String × JVal)) : JVal :=
  pyGetD s "rank" (.num 0)

/-- `summary = subject.get('summary', '暂无简介')` followed by the two
`re.sub` calls (src/main.py:144-146); a present non-string raises. -/
def subject_summary (s : List (String × JVal)) : Except PyErr String := do
  let t ← pyAsStr (pyGetD s "summary" (.str "暂无简介"))
  .ok (strip_html t)

/-- `tags = ", ".join([tag['name'] for tag in subject.get('tags', [])[:5]])`
(src/main.py:148): slice to the first five, subscript each tag's name,
comma-join. -/
def subject_tags (s : List (String × JVal)) : Except PyErr String := do
  let tl ← pySliceJ (pyGetD s "tags" (.arr [])) 5
  let names ← tl.mapM (fun t => pySubscriptJ t "name")
  pyJoin ", " names

/-- `format_subject_info` (src/main.py:130-161), assembling the f-string
of lines 150-160 from the components above. -/
def format_subject_info (s : List (String × JVal)) : Except PyErr String := do
  let score ← subject_score s
  let total_votes ← subject_total_votes s
  let summary ← subject_summary s
  let tags ← subject_tags s
  .ok ("**" ++ pyStr (subject_name_cn s) ++ "**\n原名: " ++ pyStr (subject_name s)
    ++ "\n类型: " ++ subject_type_str s ++ " | 日期: " ++ pyStr (subject_date s)
    ++ "\n评分: ⭐ " ++ pyStr score ++ " (基于" ++ pyStr total_votes ++ "人评分)"
    ++ (if pyTruthy (subject_rank s) then " | 排名: #" ++ pyStr (subject_rank s) else "")
    ++ "\n标签: " ++ (if tags = "" then "无" else tags)
    ++ "\nID: `" ++ pyStr (pyGetN s "id") ++ "`\n---\n" ++ summary)

-- ---------------------------------------------------------------------
-- List formatters: format_fuzzy_list (src/main.py:163-179) and
-- format_character_list (src/main.py:214-229)
-- ---------------------------------------------------------------------

/-- The loop `for i, item in enumerate(results[:limit], 1)` appending one
rendered line per item, as an effectful counter recursion. -/
def renderEntriesE (f : Nat → JVal → Except PyErr String) :
    Nat → List JVal → Except PyErr (List String)
  | _, [] => .ok []
  | i, x :: xs => do
    let s ← f i x
    let rest ← renderEntriesE f (i + 1) xs
    .ok (s :: rest)

/-- The same counter loop for an entry renderer that cannot raise (used
in theorem statements; linked to `renderEntriesE` under the hypothesis
that every entry renders without error). -/
def renderEntries (g : Nat → JVal → String) : Nat → List JVal → List String
  | _, [] => []
  | i, x :: xs => g i x :: renderEntries g (i + 1) xs

/-- One fuzzy-search line (src/main.py:171-174):
`f"{i}. {name_cn} ({item_type}, {date}) ID: `{item['id']}`"`, raising when
`item` is not a dict or lacks `id`. -/
def fuzzy_entry (i : Nat) (x : JVal) : Except PyErr String :=
  match x with
  | .obj fs => do
    let name_cn := pyOr (pyGetN fs "name_cn") (pyGetD fs "name" (.str "未知名称"))
    let item_type := intMapGet type_map (pyGetN fs "type") "🎬 动画"
    let date := pyGetD fs "date" (.str "未知日期")
    let idv ← pySubscriptD fs "id"
    .ok (toString i ++ ". " ++ pyStr name_cn ++ " (" ++ item_type ++ ", " ++ pyStr date
      ++ ") ID: `" ++ pyStr idv ++ "`")
  | _ => .error .attributeError

/-- The fuzzy-search line as a pure template over the entry (used in
statements; equal to `fuzzy_entry` on a dict entry that has an `id`). -/
def fuzzy_entry_str (i : Nat) (x : JVal) : String :=
  toString i ++ ". " ++ pyStr (pyOr (jGetD x "name_cn" .null) (jGetD x "name" (.str "未知名称")))
    ++ " (" ++ intMapGet type_map (jGetD x "type" .null) "🎬 动画" ++ ", "
    ++ pyStr (jGetD x "date" (.str "未知日期")) ++ ") ID: `" ++ pyStr (jGetD x "id" .null) ++ "`"

/-- One character-search line (src/main.py:221-224):
`f"{i}. {item_name} ({item_type}) ID: `{item['id']}`"`. -/
def character_entry (i : Nat) (x : JVal) : Except PyErr String :=
  match x with
  | .obj fs => do
    let item_name := pyGetD fs "name" (.str "未知名称")
    let item_type := intMapGet character_type_map (pyGetN fs "type") "👤 角色"
    let idv ← pySubscriptD fs "id"
    .ok (toString i ++ ". " ++ pyStr item_name ++ " (" ++ item_type ++ ") ID: `"
      ++ pyStr idv ++ "`")
  | _ => .error .attributeError

/-- The character-search line as a pure template over the entry. -/
def character_entry_str (i : Nat) (x : JVal) : String :=
  toString i ++ ". " ++ pyStr (jGetD x "name" (.str "未知名称")) ++ " ("
    ++ intMapGet character_type_map (jGetD x "type" .null) "👤 角色" ++ ") ID: `"
    ++ pyStr (jGetD x "id" .null) ++ "`"

/-- The shared tail of both list formatters: numbered lines, the
`total > limit` suffix (which re-reads `data['total']` by subscript),
and the final newline join (src/main.py:169-179 / 220-229). -/
def format_list_body (headline : String)
    (entry : Nat → JVal → Except PyErr String)
    (data : List (String × JVal)) (results : JVal) (limit : Int) :
    Except PyErr String := do
  let items ← pySliceJ results limit
  let entries ← renderEntriesE entry 1 items
  let gt ← pyGtInt (pyGetD data "total" (.num 0)) limit
  let trailer ←
    if gt then do
      let tot ← pySubscriptD data "total"
      pure ["\n共找到 " ++ pyStr tot ++ " 个结果, 显示前 " ++ toString limit ++ " 个"]
    else pure ([] : List String)
  .ok (String.intercalate "\n" (headline :: entries ++ trailer))

/-- `format_fuzzy_list` (src/main.py:163-179). -/
def format_fuzzy_list (data : List (String × JVal)) (limit : Int) : Except PyErr String :=
  let results := pyGetD data "data" (.arr [])
  if pyTruthy results = false then .ok "🔍 未找到相关条目"
  else format_list_body "找到以下条目：\n" fuzzy_entry data results limit

/-- `format_character_list` (src/main.py:214-229). -/
def format_character_list (data : List (String × JVal)) (limit : Int) : Except PyErr String :=
  let results := pyGetD data "data" (.arr [])
  if pyTruthy results = false then .ok "🔍 未找到相关角色"
  else format_list_body "找到以下角色：\n" character_entry data results limit

/-- A data entry that the list formatters can render without raising: a
dict that carries an `id`. -/
def entryOk (x : JVal) : Bool :=
  match x with
  | .obj fs => (fs.lookup "id").isSome
  | _ => false

theorem fuzzy_entry_ok (i : Nat) (x : JVal) (h : entryOk x = true) :
    fuzzy_entry i x = .ok (fuzzy_entry_str i x) := by
  match x with
  | .obj fs =>
    simp only [entryOk, Option.isSome_iff_exists] at h
    obtain ⟨v, hv⟩ := h
    simp [fuzzy_entry, fuzzy_entry_str, pySubscriptD, hv, jGetD, pyGetN, pyGetD,
      Bind.bind, Except.bind]

theorem character_entry_ok (i : Nat) (x : JVal) (h : entryOk x = true) :
    character_entry i x = .ok (character_entry_str i x) := by
  match x with
  | .obj fs =>
    simp only [entryOk, Option.isSome_iff_exists] at h
    obtain ⟨v, hv⟩ := h
    simp [character_entry, character_entry_str, pySubscriptD, hv, jGetD, pyGetN, pyGetD,
      Bind.bind, Except.bind]

theorem renderEntriesE_ok (f : Nat → JVal → Except PyErr String) (g : Nat → JVal → String)
    (l : List JVal) (i : Nat) (h : ∀ j x, x ∈ l → f j x = .ok (g j x)) :
    renderEntriesE f i l = .ok (renderEntries g i l) := by
  induction l generalizing i with
  | nil => simp [renderEntriesE, renderEntries]
  | cons x xs ih =>
    simp only [renderEntriesE, renderEntries, h i x (by simp),
      ih (i + 1) (fun j y hy => h j y (by simp [hy])), Bind.bind, Except.bind]

theorem renderEntries_length (g : Nat → JVal → String) (l : List JVal) (i : Nat) :
    (renderEntries g i l).length = l.length := by
  induction l generalizing i with
  | nil => rfl
  | cons x xs ih => simp [renderEntries, ih]

/-- The suffix line appended when the page's total exceeds the limit. -/
def list_suffix (n limit : Int) : String :=
  "\n共找到 " ++ toString n ++ " 个结果, 显示前 " ++ toString limit ++ " 个"

theorem format_list_body_eq (headline : String)
    (entry : Nat → JVal → Except PyErr String) (entry_str : Nat → JVal → String)
    (page : List (String × JVal)) (l : List JVal) (limit n : Int)
    (hlim : 0 < limit)
    (hok : ∀ j x, x ∈ l.take limit.toNat → entry j x = .ok (entry_str j x))
    (htot : (page.lookup "total" = none ∧ n = 0) ∨ page.lookup "total" = some (.num n)) :
    format_list_body headline entry page (.arr l) limit =
      .ok (String.intercalate "\n" (headline :: renderEntries entry_str 1 (l.take limit.toNat)
        ++ (if limit < n then [list_suffix n limit] else []))) := by
  have hslice : pySliceJ (.arr l) limit = .ok (l.take limit.toNat) := by
    simp [pySliceJ, pyTake, le_of_lt hlim]
  have hrender := renderEntriesE_ok entry entry_str (l.take limit.toNat) 1 hok
  rcases htot with ⟨hnone, hn⟩ | hsome
  · subst hn
    have : ¬ (limit < (0 : Int)) := by omega
    simp [format_list_body, hslice, hrender, pyGetD, hnone, pyGtInt, this,
      Bind.bind, Except.bind, pure, Except.pure]
  · by_cases hgt : limit < n
    · simp [format_list_body, hslice, hrender, pyGetD, hsome, pyGtInt, hgt,
        pySubscriptD, list_suffix, pyStr, pyRender, Bind.bind, Except.bind, pure, Except.pure]
    · simp [format_list_body, hslice, hrender, pyGetD, hsome, pyGtInt, hgt,
        Bind.bind, Except.bind, pure, Except.pure]

theorem list_formatters_render (page : List (String × JVal)) (l : List JVal) (limit n : Int)
    (hd : page.lookup "data" = some (.arr l))
    (hok : l.all entryOk = true)
    (htot : (page.lookup "total" = none ∧ n = 0) ∨ page.lookup "total" = some (.num n))
    (hlim : 0 < limit) :
    (l = [] →
      format_fuzzy_list page limit = .ok "🔍 未找到相关条目"
      ∧ format_character_list page limit = .ok "🔍 未找到相关角色")
    ∧ (l ≠ [] →
      format_fuzzy_list page limit =
        .ok (String.intercalate "\n" ("找到以下条目：\n" ::
          renderEntries fuzzy_entry_str 1 (l.take limit.toNat)
          ++ (if limit < n then [list_suffix n limit] else [])))
      ∧ format_character_list page limit =
        .ok (String.intercalate "\n" ("找到以下角色：\n" ::
          renderEntries character_entry_str 1 (l.take limit.toNat)
          ++ (if limit < n then [list_suffix n limit] else [])))
      ∧ (renderEntries fuzzy_entry_str 1 (l.take limit.toNat)).length
          = min limit.toNat l.length) := by
  have hmem : ∀ x ∈ l.take limit.toNat, entryOk x = true := by
    intro x hx
    exact (List.all_eq_true.mp hok) x (List.take_subset _ _ hx)
  constructor
  · rintro rfl
    constructor <;> simp [format_fuzzy_list, format_character_list, pyGetD, hd, pyTruthy]
  · intro hne
    have htr : pyTruthy (.arr l) = true := by
      simpa [pyTruthy] using hne
    refine ⟨?_, ?_, ?_⟩
    · rw [format_fuzzy_list]
      simp only [pyGetD, hd, Option.getD_some, htr]
      simp only [Bool.true_eq_false, if_false]
      exact format_list_body_eq _ _ _ _ _ _ _ hlim
        (fun j x hx => fuzzy_entry_ok j x (hmem x hx)) htot
    · rw [format_character_list]
      simp only [pyGetD, hd, Option.getD_some, htr]
      simp only [Bool.true_eq_false, if_false]
      exact format_list_body_eq _ _ _ _ _ _ _ hlim
        (fun j x hx => character_entry_ok j x (hmem x hx)) htot
    · rw [renderEntries_length, List.length_take]

/-- C6: for every search-result page whose `data` is a list of renderable
entries and every positive limit, each list formatter returns the fixed
no-results message exactly when `data` is empty; otherwise it renders
`min limit (data.length)` entries numbered consecutively from 1 (each line
showing display name, type label and id, per `fuzzy_entry_str` /
`character_entry_str`), and appends a suffix line mentioning the total and
the limit exactly when the page's total exceeds the limit. -/
theorem c6_list_formatters (page : List (String × JVal)) (l : List JVal) (limit n : Int)
    (hd : page.lookup "data" = some (.arr l))
    (hok : l.all entryOk = true)
    (htot : (page.lookup "total" = none ∧ n = 0) ∨ page.lookup "total" = some (.num n))
    (hlim : 0 < limit) :
    (l = [] →
      format_fuzzy_list page limit = .ok "🔍 未找到相关条目"
      ∧ format_character_list page limit = .ok "🔍 未找到相关角色")
    ∧ (l ≠ [] →
      format_fuzzy_list page limit =
        .ok (String.intercalate "\n" ("找到以下条目：\n" ::
          renderEntries fuzzy_entry_str 1 (l.take limit.toNat)
          ++ (if limit < n then [list_suffix n limit] else [])))
      ∧ format_character_list page limit =
        .ok (String.intercalate "\n" ("找到以下角色：\n" ::
          renderEntries character_entry_str 1 (l.take limit.toNat)
          ++ (if limit < n then [list_suffix n limit] else [])))
      ∧ (renderEntries fuzzy_entry_str 1 (l.take limit.toNat)).length
          = min limit.toNat l.length) :=
  list_formatters_render page l limit n hd hok htot hlim

/-- C6 witness: a page with two renderable entries and `total = 12`,
rendered with limit 5 — two numbered lines and the total/limit suffix. -/
theorem c6_list_formatters_witness :
    ([JVal.obj [("id", .num 11)], JVal.obj [("id", .num 12), ("name", .str "b")]].all entryOk
        = true)
    ∧ ((0 : Int) < 5)
    ∧ ([JVal.obj [("id", .num 11)], JVal.obj [("id", .num 12), ("name", .str "b")]] ≠
            ([] : List JVal) →
        format_fuzzy_list
            [("data", .arr [JVal.obj [("id", .num 11)],
                            JVal.obj [("id", .num 12), ("name", .str "b")]]),
             ("total", .num 12)] 5 =
          .ok (String.intercalate "\n" ("找到以下条目：\n" ::
            renderEntries fuzzy_entry_str 1
              (([JVal.obj [("id", .num 11)],
                 JVal.obj [("id", .num 12), ("name", .str "b")]]).take (5 : Int).toNat)
            ++ (if (5 : Int) < 12 then [list_suffix 12 5] else [])))
        ∧ format_character_list
            [("data", .arr [JVal.obj [("id", .num 11)],
                            JVal.obj [("id", .num 12), ("name", .str "b")]]),
             ("total", .num 12)] 5 =
          .ok (String.intercalate "\n" ("找到以下角色：\n" ::
            renderEntries character_entry_str 1
              (([JVal.obj [("id", .num 11)],
                 JVal.obj [("id", .num 12), ("name", .str "b")]]).take (5 : Int).toNat)
            ++ (if (5 : Int) < 12 then [list_suffix 12 5] else [])))
        ∧ (renderEntries fuzzy_entry_str 1
            (([JVal.obj [("id", .num 11)],
               JVal.obj [("id", .num 12), ("name", .str "b")]]).take (5 : Int).toNat)).length
            = min (5 : Int).toNat 2) :=
  ⟨by rfl, by decide,
   (c6_list_formatters
      [("data", .arr [JVal.obj [("id", .num 11)],
                      JVal.obj [("id", .num 12), ("name", .str "b")]]),
       ("total", .num 12)]
      [JVal.obj [("id", .num 11)], JVal.obj [("id", .num 12), ("name", .str "b")]]
      5 12 (by rfl) (by rfl) (Or.inr (by rfl)) (by decide)).2⟩


-- ---------------------------------------------------------------------
-- C3: formatters on payloads with missing fields
-- ---------------------------------------------------------------------

/-- C3 counterexample: a search page whose single data entry is an empty
object.  `format_fuzzy_list` reads `item['id']` by direct subscript
(src/main.py:174), so the missing `id` raises `KeyError` instead of
falling back to a default — the formatter does not return a string. -/
theorem c3_fuzzy_list_keyerror :
    format_fuzzy_list [("data", .arr [.obj []]), ("total", .num 1)] 5 =
      .error (.keyError "id") := rfl

/-- C3 (amended): the list formatters return a string without raising
only when every rendered entry is a dict carrying an `id` (and the
present `data`/`total` fields are well-typed); under those hypotheses no
other missing field raises.  `format_subject_info` tolerates a payload
with every top-level field absent. -/
theorem c3_formatters_no_raise (page : List (String × JVal)) (l : List JVal) (limit n : Int)
    (hd : page.lookup "data" = some (.arr l))
    (hok : l.all entryOk = true)
    (htot : (page.lookup "total" = none ∧ n = 0) ∨ page.lookup "total" = some (.num n))
    (hlim : 0 < limit) :
    (∃ out, format_fuzzy_list page limit = .ok out)
    ∧ (∃ out, format_character_list page limit = .ok out)
    ∧ (∃ out, format_subject_info [] = .ok out) := by
  have h := list_formatters_render page l limit n hd hok htot hlim
  refine ⟨?_, ?_, ⟨_, rfl⟩⟩
  · cases l with
    | nil => exact ⟨_, (h.1 rfl).1⟩
    | cons a as => exact ⟨_, ((h.2 (by simp)).1)⟩
  · cases l with
    | nil => exact ⟨_, (h.1 rfl).2⟩
    | cons a as => exact ⟨_, ((h.2 (by simp)).2.1)⟩

/-- C3 witness: the amended theorem applied to a one-entry page whose
entry has an `id` but no other field. -/
theorem c3_formatters_no_raise_witness :
    ([JVal.obj [("id", .num 7)]].all entryOk = true)
    ∧ ((0 : Int) < 3)
    ∧ ((∃ out, format_fuzzy_list [("data", .arr [JVal.obj [("id", .num 7)]])] 3 = .ok out)
      ∧ (∃ out, format_character_list [("data", .arr [JVal.obj [("id", .num 7)]])] 3 = .ok out)
      ∧ (∃ out, format_subject_info [] = .ok out)) :=
  ⟨by rfl, by decide,
   c3_formatters_no_raise [("data", .arr [JVal.obj [("id", .num 7)]])]
     [JVal.obj [("id", .num 7)]] 3 0 (by rfl) (by rfl) (Or.inl ⟨rfl, rfl⟩) (by decide)⟩

-- ---------------------------------------------------------------------
-- C7: format_subject_info defaults
-- ---------------------------------------------------------------------

theorem mapM_name_objs (ns : List String) :
    (ns.map (fun nm => JVal.obj [("name", JVal.str nm)])).mapM
        (fun t => pySubscriptJ t "name") = .ok (ns.map JVal.str) := by
  induction ns with
  | nil => rfl
  | cons a as ih =>
    rw [List.map_cons, List.mapM_cons, ih]
    rfl

theorem mapM_pyAsStr_strs (ss : List String) :
    (ss.map JVal.str).mapM pyAsStr = .ok ss := by
  induction ss with
  | nil => rfl
  | cons a as ih =>
    rw [List.map_cons, List.mapM_cons, ih]
    rfl

theorem pyJoin_strs (sep : String) (ss : List String) :
    pyJoin sep (ss.map JVal.str) = .ok (String.intercalate sep ss) := by
  simp only [pyJoin, mapM_pyAsStr_strs, Bind.bind, Except.bind]

/-- C7: `format_subject_info` assembles the template below; a missing
`name` renders "未知名称" in the 原名 slot, a missing `date` renders
"未知日期", a missing `summary` yields "暂无简介", an absent or unknown
type code renders the map's fallback label "🎬 动画" (the entry for code
2), and the rendered tag list is the comma-join of at most the first 5
tags. -/
theorem c7_subject_info_defaults (s : List (String × JVal)) (score total_votes : JVal)
    (sumStr tagsStr : String)
    (hsc : subject_score s = .ok score)
    (htv : subject_total_votes s = .ok total_votes)
    (hsum : subject_summary s = .ok sumStr)
    (htag : subject_tags s = .ok tagsStr) :
    format_subject_info s =
      .ok ("**" ++ pyStr (subject_name_cn s) ++ "**\n原名: " ++ pyStr (subject_name s)
        ++ "\n类型: " ++ subject_type_str s ++ " | 日期: " ++ pyStr (subject_date s)
        ++ "\n评分: ⭐ " ++ pyStr score ++ " (基于" ++ pyStr total_votes ++ "人评分)"
        ++ (if pyTruthy (subject_rank s) then " | 排名: #" ++ pyStr (subject_rank s) else "")
        ++ "\n标签: " ++ (if tagsStr = "" then "无" else tagsStr)
        ++ "\nID: `" ++ pyStr (pyGetN s "id") ++ "`\n---\n" ++ sumStr)
    ∧ (s.lookup "name" = none → pyStr (subject_name s) = "未知名称")
    ∧ (s.lookup "date" = none → pyStr (subject_date s) = "未知日期")
    ∧ (s.lookup "summary" = none → sumStr = "暂无简介")
    ∧ (s.lookup "type" = none → subject_type_str s = "🎬 动画")
    ∧ (∀ v, s.lookup "type" = some v → intMapLookup type_map v = none →
        subject_type_str s = "🎬 动画")
    ∧ (∀ tl, s.lookup "tags" = some (.arr tl) →
        subject_tags (("tags", .arr (tl.take 5)) :: s) = subject_tags s)
    ∧ (∀ ns : List String,
        s.lookup "tags" = some (.arr (ns.map (fun nm => .obj [("name", .str nm)]))) →
        tagsStr = String.intercalate ", " (ns.take 5)) := by
  refine ⟨?_, ?_, ?_, ?_, ?_, ?_, ?_, ?_⟩
  · simp [format_subject_info, hsc, htv, hsum, htag, Bind.bind, Except.bind]
  · intro h
    simp [subject_name, pyGetD, h, pyStr, pyRender]
  · intro h
    simp [subject_date, pyGetD, h, pyStr, pyRender]
  · intro h
    rw [subject_summary] at hsum
    simp only [pyGetD, h, Option.getD_none] at hsum
    have : strip_html "暂无简介" = "暂无简介" := by decide
    simp [pyAsStr, this, Bind.bind, Except.bind] at hsum
    exact hsum.symm
  · intro h
    simp only [subject_type_str, intMapGet, intMapLookup, pyGetD, h, Option.getD_none, jIntKey]
    decide
  · intro v hv hnone
    simp [subject_type_str, intMapGet, pyGetD, hv, hnone]
  · intro tl htl
    simp [subject_tags, pyGetD, htl, pySliceJ, pyTake, List.take_take]
  · intro ns hns
    rw [subject_tags] at htag
    simp only [pyGetD, hns, Option.getD_some, pySliceJ, pyTake,
      if_pos (by decide : (0 : Int) ≤ 5), ← List.map_take] at htag
    rw [show ((5 : Int).toNat) = 5 from rfl] at htag
    simp only [Bind.bind, Except.bind, mapM_name_objs, pyJoin_strs] at htag
    cases htag
    rfl

/-- C7 witness: the empty payload — every field absent — renders the
all-defaults card. -/
theorem c7_subject_info_defaults_witness :
    (subject_score [] = .ok (.num 0))
    ∧ (subject_total_votes [] = .ok (.num 0))
    ∧ (subject_summary [] = .ok "暂无简介")
    ∧ (subject_tags [] = .ok "")
    ∧ (format_subject_info [] =
        .ok ("**" ++ pyStr (subject_name_cn []) ++ "**\n原名: " ++ pyStr (subject_name [])
          ++ "\n类型: " ++ subject_type_str [] ++ " | 日期: " ++ pyStr (subject_date [])
          ++ "\n评分: ⭐ " ++ pyStr (.num 0) ++ " (基于" ++ pyStr (.num 0) ++ "人评分)"
          ++ (if pyTruthy (subject_rank []) then " | 排名: #" ++ pyStr (subject_rank []) else "")
          ++ "\n标签: " ++ (if ("" : String) = "" then "无" else "")
          ++ "\nID: `" ++ pyStr (pyGetN [] "id") ++ "`\n---\n" ++ "暂无简介")) :=
  ⟨rfl, rfl, rfl, rfl,
   (c7_subject_info_defaults [] (.num 0) (.num 0) "暂无简介" "" rfl rfl rfl rfl).1⟩

-- ---------------------------------------------------------------------
-- C2: id-or-keyword resolution (src/main.py:358-367, 428-435, 496-503)
-- ---------------------------------------------------------------------

/-- What an id-or-keyword command does after parsing its query. -/
inductive ResolveStep where
  | getById (id : Nat)
  | notFound
  | searchGetById (idv : JVal)
  | failure (e : PyErr)

/-- The resolution policy shared verbatim by `accurate_search`
(src/main.py:358-367), `get_character` (428-435) and `get_person`
(496-503): a digit-only query goes straight to the get-by-id endpoint;
otherwise `search(query, limit=1)` is issued (its response page is the
`page` argument), an empty/absent `data` ends in the not-found reply, and
otherwise `search_data['data'][0]['id']` is fetched.  The second
component lists the search calls performed, as (keyword, limit) pairs. -/
def id_or_keyword_resolve (query : String) (page : List (String × JVal)) :
    ResolveStep × List (String × Int) :=
  if pyIsdigit query then (.getById (pyInt query), [])
  else
    let d := pyGetN page "data"
    if pyTruthy d = false then (.notFound, [(query, 1)])
    else
      match pyIndex0 d >>= (fun x => pySubscriptJ x "id") with
      | .ok v => (.searchGetById v, [(query, 1)])
      | .error e => (.failure e, [(query, 1)])

/-- C2: a digit-only query calls get-by-id directly and performs no
search; any other query performs exactly one `search(query, limit=1)`,
ends in the not-found reply when the page's `data` is empty, and
otherwise fetches the id of the first entry of `data`. -/
theorem c2_resolution_policy (query : String) (page : List (String × JVal)) :
    (pyIsdigit query = true →
      id_or_keyword_resolve query page = (.getById (pyInt query), []))
    ∧ (pyIsdigit query = false →
      (id_or_keyword_resolve query page).2 = [(query, 1)]
      ∧ (page.lookup "data" = some (.arr []) →
          (id_or_keyword_resolve query page).1 = .notFound)
      ∧ (∀ x xs fs v, page.lookup "data" = some (.arr (x :: xs)) → x = .obj fs →
          fs.lookup "id" = some v →
          (id_or_keyword_resolve query page).1 = .searchGetById v)) := by
  constructor
  · intro h
    simp [id_or_keyword_resolve, h]
  · intro h
    refine ⟨?_, ?_, ?_⟩
    · rw [id_or_keyword_resolve]
      rw [if_neg (by simp [h])]
      dsimp only
      split
      · rfl
      · split <;> rfl
    · intro hd
      simp [id_or_keyword_resolve, h, pyGetN, hd, pyTruthy]
    · intro x xs fs v hd hx hv
      subst hx
      simp [id_or_keyword_resolve, h, pyGetN, hd, pyTruthy, pyIndex0, pySubscriptJ,
        pySubscriptD, hv, Bind.bind, Except.bind]

/-- C2 witness: the three branches at concrete queries and pages. -/
theorem c2_resolution_policy_witness :
    id_or_keyword_resolve "123" [] = (.getById 123, [])
    ∧ (id_or_keyword_resolve "cl" [("data", .arr [])]).1 = .notFound
    ∧ (id_or_keyword_resolve "cl" [("data", .arr [.obj [("id", .num 9)]])]).1 =
        .searchGetById (.num 9)
    ∧ (id_or_keyword_resolve "cl" [("data", .arr [.obj [("id", .num 9)]])]).2 = [("cl", 1)] :=
  ⟨by
     have h1 := (c2_resolution_policy "123" []).1 (by decide)
     rwa [show pyInt "123" = 123 by decide] at h1,
   ((c2_resolution_policy "cl" [("data", .arr [])]).2 (by decide)).2.1 rfl,
   ((c2_resolution_policy "cl" [("data", .arr [.obj [("id", .num 9)]])]).2
     (by decide)).2.2 (.obj [("id", .num 9)]) [] [("id", .num 9)] (.num 9) rfl rfl rfl,
   ((c2_resolution_policy "cl" [("data", .arr [.obj [("id", .num 9)]])]).2 (by decide)).1⟩

-- ---------------------------------------------------------------------
-- C4 / C8: search_subjects with its cache (src/main.py:108-123) and
-- search_characters (src/main.py:181-186)
-- ---------------------------------------------------------------------

/-- The mutable cache-related state of `API_Bangumi`: `self.search_cache`
plus the eviction callbacks registered with
`asyncio.get_event_loop().call_later(300, ...)`, each recorded as
(absolute expiry time in seconds, cache key). -/
structure CacheState where
  cache : List (String × JVal)
  timers : List (Nat × String)

/-- `cache_key = f"search:{keyword}:{limit}"` (src/main.py:110). -/
def cache_key (keyword : String) (limit : Int) : String :=
  "search:" ++ keyword ++ ":" ++ toString limit

/-- Python dict assignment `d[k] = v`: replace the key in place or
append it. -/
def assocSet (l : List (String × JVal)) (k : String) (v : JVal) : List (String × JVal) :=
  match l with
  | [] => [(k, v)]
  | (k2, w) :: rest => if k2 = k then (k, v) :: rest else (k2, w) :: assocSet rest k v

/-- `search_subjects` (src/main.py:108-123) with the state passed
explicitly: a cache hit returns the stored page and performs no fetch;
a miss runs the fetch (`_request`, abstracted as its outcome `fetch`),
and only on success stores the page and registers the 300-second
eviction timer.  The boolean records whether the fetch was invoked. -/
def search_subjects (st : CacheState) (now : Nat) (keyword : String) (limit : Int)
    (fetch : Except PyErr JVal) : Except PyErr JVal × CacheState × Bool :=
  let key := cache_key keyword limit
  match st.cache.lookup key with
  | some v => (.ok v, st, false)
  | none =>
    match fetch with
    | .error e => (.error e, st, true)
    | .ok data =>
      (.ok data,
       { cache := assocSet st.cache key data, timers := st.timers ++ [(now + 300, key)] },
       true)

/-- The keys whose `call_later` eviction callbacks have come due. -/
def dueKeys (timers : List (Nat × String)) (now : Nat) : List String :=
  (timers.filter (fun p => decide (p.1 ≤ now))).map (fun p => p.2)

/-- Running every due eviction callback `self.search_cache.pop(cache_key,
None)` (src/main.py:121) up to the given instant. -/
def fireDue (st : CacheState) (now : Nat) : CacheState :=
  { cache := st.cache.filter (fun p => !((dueKeys st.timers now).contains p.1)),
    timers := st.timers.filter (fun p => !(decide (p.1 ≤ now))) }

theorem lookup_assocSet_self (l : List (String × JVal)) (k : String) (v : JVal) :
    (assocSet l k v).lookup k = some v := by
  induction l with
  | nil => simp [assocSet, List.lookup]
  | cons p rest ih =>
    obtain ⟨k2, w⟩ := p
    rw [assocSet]
    by_cases h : k2 = k
    · simp [h, List.lookup]
    · simp only [h, if_false, List.lookup]
      have : (k == k2) = false := by
        simp [BEq.beq]
        exact fun he => h he.symm
      simp [this, ih]

theorem lookup_filter_not_bad (l : List (String × JVal)) (k : String) (bad : List String)
    (h : k ∉ bad) :
    (l.filter (fun p => !(bad.contains p.1))).lookup k = l.lookup k := by
  induction l with
  | nil => rfl
  | cons p rest ih =>
    obtain ⟨k2, w⟩ := p
    by_cases hk : k = k2
    · subst hk
      rw [List.filter_cons, if_pos (by simp [h])]
      simp only [List.lookup, beq_self_eq_true]
    · have hbeq : (k == k2) = false := beq_eq_false_iff_ne.mpr hk
      by_cases hb : k2 ∈ bad
      · rw [List.filter_cons, if_neg (by simp [hb])]
        rw [ih]
        simp only [List.lookup, hbeq]
      · rw [List.filter_cons, if_pos (by simp [hb])]
        simp only [List.lookup, hbeq, ih]

theorem lookup_filter_bad (l : List (String × JVal)) (k : String) (bad : List String)
    (h : k ∈ bad) :
    (l.filter (fun p => !(bad.contains p.1))).lookup k = none := by
  induction l with
  | nil => rfl
  | cons p rest ih =>
    obtain ⟨k2, w⟩ := p
    by_cases hk : k = k2
    · subst hk
      rw [List.filter_cons, if_neg (by simp [h])]
      exact ih
    · have hbeq : (k == k2) = false := beq_eq_false_iff_ne.mpr hk
      by_cases hb : k2 ∈ bad
      · rw [List.filter_cons, if_neg (by simp [hb])]
        exact ih
      · rw [List.filter_cons, if_pos (by simp [hb])]
        simp only [List.lookup, hbeq, ih]

theorem mem_dueKeys_iff (timers : List (Nat × String)) (now : Nat) (k : String) :
    k ∈ dueKeys timers now ↔ ∃ t, (t, k) ∈ timers ∧ t ≤ now := by
  simp only [dueKeys, List.mem_map, List.mem_filter]
  constructor
  · rintro ⟨⟨t, k2⟩, ⟨hmem, hle⟩, rfl⟩
    exact ⟨t, hmem, by simpa using hle⟩
  · rintro ⟨t, hmem, hle⟩
    exact ⟨(t, k), ⟨hmem, by simpa using hle⟩, rfl⟩

/-- C4: on a cold key, the first `search_subjects` call invokes the fetch
and returns its page; a second call before the 300-second eviction timer
has come due (every due callback having run) returns the cached page with
no fetch; a call once the timer is due (so the eviction callback has
popped the entry) invokes the fetch again; and a call whose fetch raises
leaves the cache state — entries and timers — completely unchanged. -/
theorem c4_search_cache (st0 : CacheState) (t0 t1 t2 : Nat) (kw : String) (limit : Int)
    (page page2 : JVal) (e : PyErr) (f2 : Except PyErr JVal)
    (hmiss : st0.cache.lookup (cache_key kw limit) = none)
    (htimer : cache_key kw limit ∉ st0.timers.map (fun p => p.2))
    (h1 : t1 < t0 + 300) (h2 : t0 + 300 ≤ t2) :
    (search_subjects st0 t0 kw limit (.ok page)).2.2 = true
    ∧ (search_subjects st0 t0 kw limit (.ok page)).1 = .ok page
    ∧ (search_subjects (fireDue (search_subjects st0 t0 kw limit (.ok page)).2.1 t1) t1
        kw limit f2).1 = .ok page
    ∧ (search_subjects (fireDue (search_subjects st0 t0 kw limit (.ok page)).2.1 t1) t1
        kw limit f2).2.2 = false
    ∧ (search_subjects (fireDue (search_subjects st0 t0 kw limit (.ok page)).2.1 t2) t2
        kw limit (.ok page2)).2.2 = true
    ∧ (search_subjects (fireDue (search_subjects st0 t0 kw limit (.ok page)).2.1 t2) t2
        kw limit (.ok page2)).1 = .ok page2
    ∧ search_subjects st0 t0 kw limit (.error e) = (.error e, st0, true) := by
  have hs1 : search_subjects st0 t0 kw limit (.ok page) =
      (.ok page,
       { cache := assocSet st0.cache (cache_key kw limit) page,
         timers := st0.timers ++ [(t0 + 300, cache_key kw limit)] },
       true) := by
    simp only [search_subjects, hmiss]
  have hnotdue : cache_key kw limit ∉
      dueKeys (st0.timers ++ [(t0 + 300, cache_key kw limit)]) t1 := by
    rw [mem_dueKeys_iff]
    rintro ⟨t, hmem, hle⟩
    rcases List.mem_append.mp hmem with hin | hin
    · exact htimer (List.mem_map.mpr ⟨(t, cache_key kw limit), hin, rfl⟩)
    · simp at hin
      omega
  have hdue : cache_key kw limit ∈
      dueKeys (st0.timers ++ [(t0 + 300, cache_key kw limit)]) t2 := by
    rw [mem_dueKeys_iff]
    exact ⟨t0 + 300, List.mem_append.mpr (Or.inr (by simp)), h2⟩
  have hhit : (fireDue
      { cache := assocSet st0.cache (cache_key kw limit) page,
        timers := st0.timers ++ [(t0 + 300, cache_key kw limit)] } t1).cache.lookup
      (cache_key kw limit) = some page := by
    simp only [fireDue]
    rw [lookup_filter_not_bad _ _ _ hnotdue]
    exact lookup_assocSet_self _ _ _
  have hgone : (fireDue
      { cache := assocSet st0.cache (cache_key kw limit) page,
        timers := st0.timers ++ [(t0 + 300, cache_key kw limit)] } t2).cache.lookup
      (cache_key kw limit) = none := by
    simp only [fireDue]
    exact lookup_filter_bad _ _ _ hdue
  refine ⟨by rw [hs1], by rw [hs1], ?_, ?_, ?_, ?_, ?_⟩
  · rw [hs1]
    simp only [search_subjects, hhit]
  · rw [hs1]
    simp only [search_subjects, hhit]
  · rw [hs1]
    simp only [search_subjects, hgone]
  · rw [hs1]
    simp only [search_subjects, hgone]
  · simp only [search_subjects, hmiss]

/-- C4 witness: a cold cache, first call at t=0, second call at t=299
(cache hit, no fetch), third call at t=300 (entry evicted, fetch again). -/
theorem c4_search_cache_witness :
    ((⟨[], []⟩ : CacheState).cache.lookup (cache_key "k" 5) = none)
    ∧ (cache_key "k" 5 ∉ (⟨[], []⟩ : CacheState).timers.map (fun p => p.2))
    ∧ (299 < 0 + 300) ∧ (0 + 300 ≤ 300)
    ∧ (search_subjects ⟨[], []⟩ 0 "k" 5 (.ok (.num 1))).2.2 = true
    ∧ (search_subjects (fireDue (search_subjects ⟨[], []⟩ 0 "k" 5 (.ok (.num 1))).2.1 299) 299
        "k" 5 (.error .typeError)).2.2 = false
    ∧ (search_subjects (fireDue (search_subjects ⟨[], []⟩ 0 "k" 5 (.ok (.num 1))).2.1 300) 300
        "k" 5 (.ok (.num 2))).2.2 = true
    ∧ search_subjects ⟨[], []⟩ 0 "k" 5 (.error .typeError) =
        (.error .typeError, ⟨[], []⟩, true) :=
  ⟨rfl, by simp, by decide, by decide,
   (c4_search_cache ⟨[], []⟩ 0 299 300 "k" 5 (.num 1) (.num 2) .typeError
     (.error .typeError) rfl (by simp) (by decide) (by decide)).1,
   (c4_search_cache ⟨[], []⟩ 0 299 300 "k" 5 (.num 1) (.num 2) .typeError
     (.error .typeError) rfl (by simp) (by decide) (by decide)).2.2.2.1,
   (c4_search_cache ⟨[], []⟩ 0 299 300 "k" 5 (.num 1) (.num 2) .typeError
     (.error .typeError) rfl (by simp) (by decide) (by decide)).2.2.2.2.1,
   (c4_search_cache ⟨[], []⟩ 0 299 300 "k" 5 (.num 1) (.num 2) .typeError
     (.error .typeError) rfl (by simp) (by decide) (by decide)).2.2.2.2.2.2⟩

-- ---------------------------------------------------------------------
-- C8: no local validation of the search limit
-- ---------------------------------------------------------------------

/-- `self.base_url` (src/main.py:38). -/
def base_url : String := "https://api.bgm.tv"

/-- An outgoing HTTP request as `_request` receives it: url, method,
JSON body and query params. -/
structure RequestSpec where
  url : String
  method : String
  json_data : List (String × JVal)
  params : List (String × JVal)

/-- `search_characters` (src/main.py:181-186): builds the POST request —
body `{'keyword': keyword}`, query `{'limit': limit}` — and hands it
straight to `_request`; there is no check on `limit`. -/
def search_characters_request (keyword : String) (limit : Int) : RequestSpec :=
  { url := base_url ++ "/v0/search/characters", method := "POST",
    json_data := [("keyword", .str keyword)], params := [("limit", .num limit)] }

/-- C8 counterexample: with `limit = 0` (≤ 0) nothing is rejected
locally — `search_subjects` on a cold cache still invokes the fetch, and
`search_characters` still builds and dispatches the request carrying
`limit = 0` in its params. -/
theorem c8_no_validation_counterexample :
    (search_subjects ⟨[], []⟩ 0 "k" 0 (.ok (.num 1))).2.2 = true
    ∧ (search_characters_request "k" 0).params = [("limit", .num 0)] :=
  ⟨rfl, rfl⟩

/-- C8 (amended): the search operations perform no local validation of
`limit`: for every `limit ≤ 0`, a cold-cache `search_subjects` call
invokes the HTTP fetch, and `search_characters` dispatches the request
with that limit in its query params, never a local validation error. -/
theorem c8_limit_not_validated (kw : String) (limit : Int) (st : CacheState) (now : Nat)
    (f : Except PyErr JVal)
    (hmiss : st.cache.lookup (cache_key kw limit) = none)
    (hl : limit ≤ 0) :
    (search_subjects st now kw limit f).2.2 = true
    ∧ search_characters_request kw limit =
      { url := base_url ++ "/v0/search/characters", method := "POST",
        json_data := [("keyword", .str kw)], params := [("limit", .num limit)] } := by
  constructor
  · simp only [search_subjects, hmiss]
    cases f <;> rfl
  · rfl

/-- C8 witness: the amended theorem at `limit = 0`. -/
theorem c8_limit_not_validated_witness :
    ((⟨[], []⟩ : CacheState).cache.lookup (cache_key "k" 0) = none)
    ∧ ((0 : Int) ≤ 0)
    ∧ (search_subjects ⟨[], []⟩ 7 "k" 0 (.ok (.num 1))).2.2 = true :=
  ⟨rfl, by decide,
   (c8_limit_not_validated "k" 0 ⟨[], []⟩ 7 (.ok (.num 1)) rfl (by decide)).1⟩

-- ---------------------------------------------------------------------
-- C5 / C10: the rate limiter of _request (src/main.py:66-72)
-- ---------------------------------------------------------------------

/-- The event-loop state seen by `_request`'s rate-limiting prologue:
the wall clock (seconds, ℚ), `self.last_request_time`, the coroutines
currently inside `await asyncio.sleep` with their wake deadlines, and the
dispatch instants so far (the moments line 72 runs and the request is
sent). -/
structure RLState where
  clock : ℚ
  last : ℚ
  sleeping : List (Nat × ℚ)
  dispatches : List ℚ
deriving DecidableEq

/-- Events of the cooperative scheduler: a coroutine enters `_request` at
wall-clock time `t` (running lines 69-71 atomically — the only await is
the sleep), or a sleeping coroutine wakes at its deadline (running line
72 and dispatching). -/
inductive RLEvent where
  | arrive (c : Nat) (t : ℚ)
  | wake (c : Nat)

/-- One scheduler step.  An arrival reads `current_time` and
`self.last_request_time`; inside the 1.1-second window it starts
`asyncio.sleep(1.1 - (current_time - last))` (waking at
`t + (1.1 - (t - last))`), otherwise it records the new dispatch time and
proceeds at once.  A wake records the new dispatch time and proceeds.
Invalid events (time running backwards, waking a coroutine that is not
asleep or before its deadline) yield `none`. -/
def rlStep (st : RLState) : RLEvent → Option RLState
  | .arrive c t =>
    if t < st.clock then none
    else if t - st.last < 11 / 10 then
      some { st with clock := t,
                     sleeping := (c, t + (11 / 10 - (t - st.last))) :: st.sleeping }
    else
      some { st with clock := t, last := t, dispatches := st.dispatches ++ [t] }
  | .wake c =>
    match st.sleeping.lookup c with
    | none => none
    | some d =>
      if d < st.clock then none
      else
        some { clock := d, last := d,
               sleeping := st.sleeping.filter (fun p => p.1 != c),
               dispatches := st.dispatches ++ [d] }

/-- Run a whole schedule. -/
def rlRun (st : RLState) : List RLEvent → Option RLState
  | [] => some st
  | e :: es =>
    match rlStep st e with
    | none => none
    | some st2 => rlRun st2 es

/-- `self.last_request_time = 0` at construction (src/main.py:64), with
nobody asleep and nothing dispatched. -/
def rlInit : RLState :=
  { clock := 0, last := 0, sleeping := [], dispatches := [] }

/-- Consecutive dispatch instants are at least 1.1 seconds apart. -/
def spacedOk : List ℚ → Bool
  | a :: b :: rest => decide ((11 : ℚ) / 10 ≤ b - a) && spacedOk (b :: rest)
  | _ => true

/-- C5 counterexample: two coroutines that both enter `_request` inside
the same 1.1-second window (at t = 100.5 and t = 100.6, after a dispatch
at t = 100) each read the old `last_request_time = 100` — it is only
written after the sleep — so both sleep until t = 101.1 and both dispatch
at that same instant: consecutive dispatch starts 0 seconds apart. -/
theorem c5_concurrent_dispatch_collision :
    (rlRun rlInit
        [.arrive 0 100, .arrive 1 (201 / 2), .arrive 2 (503 / 5), .wake 1, .wake 2]).map
        (fun st => (st.dispatches, spacedOk st.dispatches)) =
      some ([100, 1011 / 10, 1011 / 10], false) := by
  norm_num [rlRun, rlStep, rlInit, spacedOk, List.lookup, List.filter, Option.map,
    show (1 == 2) = false from rfl, show (1 == 1) = true from rfl,
    show (2 != 1) = true from rfl, show (2 == 2) = true from rfl]

/-- C5 (amended): for sequential, non-overlapping callers the limiter
behaves as claimed — a caller arriving inside the window sleeps exactly
the remainder `1.1 - elapsed` and dispatches at `last + 1.1` (so ≥ 1.1 s
after the previous dispatch), and a caller arriving outside the window
dispatches immediately, ≥ 1.1 s after the previous one.  The ≥ 1.1 s
spacing does not extend to concurrent callers (see the counterexample). -/
theorem c5_sequential_spacing (st : RLState) (c : Nat) (t : ℚ)
    (hsleep : st.sleeping = []) (hclock : st.clock ≤ t) :
    (t - st.last < 11 / 10 →
      rlRun st [.arrive c t, .wake c] =
        some { clock := st.last + 11 / 10, last := st.last + 11 / 10, sleeping := [],
               dispatches := st.dispatches ++ [st.last + 11 / 10] }
      ∧ (st.last + 11 / 10) - t = 11 / 10 - (t - st.last)
      ∧ (11 : ℚ) / 10 ≤ (st.last + 11 / 10) - st.last)
    ∧ (11 / 10 ≤ t - st.last →
      rlRun st [.arrive c t] =
        some { clock := t, last := t, sleeping := st.sleeping,
               dispatches := st.dispatches ++ [t] }
      ∧ (11 : ℚ) / 10 ≤ t - st.last) := by
  constructor
  · intro h
    have hd : t + (11 / 10 - (t - st.last)) = st.last + 11 / 10 := by ring
    refine ⟨?_, by ring, by linarith⟩
    simp only [rlRun, rlStep, hsleep]
    rw [if_neg (not_lt.mpr hclock), if_pos h]
    simp only [rlRun, rlStep, List.lookup, beq_self_eq_true]
    rw [if_neg (by linarith : ¬ t + (11 / 10 - (t - st.last)) < t)]
    simp only [List.filter, bne_self_eq_false]
    rw [hd]
  · intro h
    refine ⟨?_, h⟩
    simp only [rlRun, rlStep]
    rw [if_neg (not_lt.mpr hclock), if_neg (not_lt.mpr h)]

/-- C5 witness: the amended theorem for one caller arriving at t = 100.5
after a dispatch at t = 100 — it sleeps the remaining 0.6 s and
dispatches at t = 101.1 exactly. -/
theorem c5_sequential_spacing_witness :
    ((201 / 2 : ℚ) - 100 < 11 / 10)
    ∧ rlRun { clock := 100, last := 100, sleeping := [], dispatches := [100] }
        [.arrive 1 (201 / 2), .wake 1] =
      some { clock := (100 : ℚ) + 11 / 10, last := (100 : ℚ) + 11 / 10, sleeping := [],
             dispatches := [100, (100 : ℚ) + 11 / 10] } :=
  ⟨by norm_num,
   ((c5_sequential_spacing
      { clock := 100, last := 100, sleeping := [], dispatches := [100] } 1 (201 / 2)
      rfl (by norm_num)).1 (by norm_num)).1⟩

/-- `API_Bangumi.__init__` (src/main.py:35-64): an empty access token is
rejected with `ValueError`; otherwise the client starts with
`last_request_time = 0` and an empty search cache. -/
def api_bangumi_init (access_token : String) : Except String (RLState × CacheState) :=
  if access_token = "" then .error "Bangumi access_token 未设置, 插件无法工作。"
  else .ok (rlInit, ⟨[], []⟩)

/-- C10: on a freshly constructed client `last_request_time` is 0, so the
first `_request` at any wall-clock instant `now > 1.1` sees
`now - 0 ≥ 1.1`, never sleeps, and dispatches immediately at `now`. -/
theorem c10_first_request_immediate (token : String) (st : RLState × CacheState)
    (c : Nat) (now : ℚ)
    (htok : token ≠ "") (hinit : api_bangumi_init token = .ok st)
    (hnow : 11 / 10 < now) :
    st.1.last = 0
    ∧ rlStep st.1 (.arrive c now) =
        some { clock := now, last := now, sleeping := [], dispatches := [now] } := by
  rw [api_bangumi_init, if_neg htok] at hinit
  cases hinit
  refine ⟨rfl, ?_⟩
  show rlStep rlInit (.arrive c now) = _
  simp only [rlStep, rlInit]
  rw [if_neg (by linarith : ¬ now < (0 : ℚ)), if_neg (by simp; linarith : ¬ now - 0 < (11 : ℚ) / 10)]
  rfl

/-- C10 witness: a fresh client and a first request at t = 2 seconds. -/
theorem c10_first_request_immediate_witness :
    (("t" : String) ≠ "")
    ∧ api_bangumi_init "t" = .ok (rlInit, ⟨[], []⟩)
    ∧ ((11 : ℚ) / 10 < 2)
    ∧ (rlInit, (⟨[], []⟩ : CacheState)).1.last = 0
    ∧ rlStep (rlInit, (⟨[], []⟩ : CacheState)).1 (.arrive 0 2) =
        some { clock := 2, last := 2, sleeping := [], dispatches := [2] } :=
  ⟨by decide, rfl, by norm_num,
   (c10_first_request_immediate "t" (rlInit, ⟨[], []⟩) 0 2 (by decide) rfl (by norm_num)).1,
   (c10_first_request_immediate "t" (rlInit, ⟨[], []⟩) 0 2 (by decide) rfl (by norm_num)).2⟩

-- ---------------------------------------------------------------------
-- C9: get_img_changeFormat (src/method.py:15-61)
-- ---------------------------------------------------------------------

/-- `url.startswith('http')` (src/method.py:25). -/
def pyStartswith (s pre : String) : Bool :=
  pre.data.isPrefixOf s.data

/-- `str.split(sep)` for a one-character separator, over char lists. -/
def splitChar (sep : Char) : List Char → List (List Char)
  | [] => [[]]
  | c :: rest =>
    if c == sep then [] :: splitChar sep rest
    else
      match splitChar sep rest with
      | [] => [[c]]
      | g :: gs => (c :: g) :: gs

/-- `url.split('?')[0]` (src/method.py:28). -/
def beforeQuery (s : String) : String :=
  String.mk ((splitChar '?' s.data).headD s.data)

/-- `os.path.basename`: the part after the last `/`. -/
def pyBasename (s : String) : String :=
  String.mk ((splitChar '/' s.data).getLastD s.data)

/-- The stem of `os.path.splitext`: everything before the last `.` of the
basename, except that the leading dots of a dotfile never start an
extension. -/
def splitextStem (b : String) : String :=
  let cs := b.data
  let lead := (cs.takeWhile (fun c => c == '.')).length
  let rest := cs.drop lead
  if rest.contains '.' then
    String.mk (cs.take lead ++ ((rest.reverse.dropWhile (fun c => c != '.')).drop 1).reverse)
  else b

/-- `filepath = os.path.join(save_dir, f"temp_{filename}")`
(src/method.py:28-29), with POSIX `/` joining. -/
def temp_filepath (save_dir url : String) : String :=
  save_dir ++ "/" ++ "temp_" ++ pyBasename (beforeQuery url)

/-- `output_path = os.path.join(save_dir,
f"{os.path.splitext(filename)[0]}.{output_format}")` (src/method.py:30). -/
def output_filepath (save_dir url output_format : String) : String :=
  save_dir ++ "/" ++ splitextStem (pyBasename (beforeQuery url)) ++ "." ++ output_format

/-- The failure modes of `get_img_changeFormat`: the pre-try URL
validation, a non-200 download status, a failure while writing the
download, and PIL decode/encode failures. -/
inductive ImgErr where
  | invalidUrl
  | httpError (status : Nat)
  | writeError
  | decodeError
  | encodeError
deriving DecidableEq

/-- `os.remove(p)` guarded by `os.path.exists(p)` (src/method.py:57-59). -/
def fsRemove (fs : List String) (p : String) : List String :=
  fs.filter (fun q => q != p)

/-- `get_img_changeFormat` (src/method.py:15-61) over an explicit file
system (a list of paths).  The download outcome and the PIL decode/encode
outcomes are the `status`/`writeOk`/`decodeOk`/`encodeOk` parameters.  An
invalid URL raises `ValueError` before the `try` block, so the temp file
is neither created nor cleaned; inside the `try`, the temp file is
created by `aiofiles.open` once the status check passed, and the
`finally` block removes it on every exit path (modelled with `os.remove`
succeeding; a failing remove is only logged in the source). -/
def get_img_changeFormat (url save_dir output_format : String) (status : Nat)
    (writeOk decodeOk encodeOk : Bool) (fs : List String) :
    Except ImgErr String × List String :=
  if !(pyStartswith url "http") then (.error .invalidUrl, fs)
  else
    let filepath := temp_filepath save_dir url
    let output_path := output_filepath save_dir url output_format
    let body : Except ImgErr String × List String :=
      if status != 200 then (.error (.httpError status), fs)
      else
        let fs1 := filepath :: fs
        if !writeOk then (.error .writeError, fs1)
        else if !decodeOk then (.error .decodeError, fs1)
        else if !encodeOk then (.error .encodeError, fs1)
        else (.ok output_path, output_path :: fs1)
    (body.1, fsRemove body.2 filepath)

/-- C9: whether the call returns the output path or raises at any stage,
the temporary download file does not exist when the call exits: every
path through the `try` removes it in the scoped cleanup, and the pre-try
validation failure never creates it. -/
theorem c9_temp_file_removed (url save_dir output_format : String) (status : Nat)
    (writeOk decodeOk encodeOk : Bool) (fs : List String)
    (h : temp_filepath save_dir url ∉ fs) :
    temp_filepath save_dir url ∉
      (get_img_changeFormat url save_dir output_format status
        writeOk decodeOk encodeOk fs).2 := by
  have hrm : ∀ l : List String, temp_filepath save_dir url ∉
      fsRemove l (temp_filepath save_dir url) := by
    intro l
    simp [fsRemove, List.mem_filter]
  rw [get_img_changeFormat]
  by_cases hu : pyStartswith url "http"
  · simp only [hu, Bool.not_true, Bool.false_eq_true, if_false]
    exact hrm _
  · simp only [hu, Bool.not_false, if_true]
    exact h

/-- C9 witness: a successful conversion of `http://a/b.png`; the temp
file `tmp/temp_b.png` is gone and the output path is returned. -/
theorem c9_temp_file_removed_witness :
    (temp_filepath "tmp" "http://a/b.png" ∉ ([] : List String))
    ∧ temp_filepath "tmp" "http://a/b.png" ∉
        (get_img_changeFormat "http://a/b.png" "tmp" "jpeg" 200 true true true []).2
    ∧ (get_img_changeFormat "http://a/b.png" "tmp" "jpeg" 200 true true true []) =
        (.ok "tmp/b.jpeg", ["tmp/b.jpeg"]) :=
  ⟨by simp,
   c9_temp_file_removed "http://a/b.png" "tmp" "jpeg" 200 true true true [] (by simp),
   by rfl⟩

end Bangumi
